import Mathlib

/-!
Verification of the loldata match-aggregation pipeline
(src/api/utils/interactions.py and src/api/utils/helpers.py),
shallowly embedded in Lean 4.

Numbers: Python integers are modelled as Int, true division as division in
Rat.  Python round(x, n) performs round-half-to-even (bankers rounding); it
is modelled exactly on rationals (the source applies it to quotients of
machine integers, where the float detour is irrelevant to every property
proved here).  Fallible Python code (KeyError, UnboundLocalError, raise)
is modelled with Except.
-/

namespace LolData

/-- Floor of a rational, computably: fdiv of numerator by denominator. -/
def ratFloor (q : ℚ) : ℤ := Int.fdiv q.num (q.den : ℤ)

/-- Round a rational to the nearest integer, ties to even:
the semantics of Python round(x) / round(x, 0). -/
def roundHalfEven (q : ℚ) : ℤ :=
  let f : ℤ := ratFloor q
  let r : ℚ := q - (f : ℚ)
  if r < 1/2 then f
  else if 1/2 < r then f + 1
  else if f % 2 = 0 then f else f + 1

/-- Python round(x, 2): round to two decimal places, ties to even. -/
def pyRound2 (q : ℚ) : ℚ := (roundHalfEven (q * 100) : ℚ) / 100

/-- Python int(round(x, 0)): round already yields an integral value,
so int() only converts the type. -/
def pyRound0 (q : ℚ) : ℤ := roundHalfEven q

/-- Python int(q) for a rational: truncation toward zero. -/
def pyTrunc (q : ℚ) : ℤ := if q < 0 then -ratFloor (-q) else ratFloor q

/-- helpers.get_date_by_timestamp: converts an epoch-millisecond timestamp
to the calendar date string of that instant.  Only equality of dates matters
to the claims, so the date is represented by its civil day index
(floor of ms / 1000 / 86400), an injective image of the printed date. -/
def get_date_by_timestamp (ms : ℤ) : ℤ :=
  ratFloor ((ms : ℚ) / 1000 / 86400)

/-- helpers.get_region_by_platform.  The source assigns the local variable
region in three guarded branches and returns it; for a platform outside the
three enumerated tuples no branch runs and the return raises
UnboundLocalError, modelled as none. -/
def get_region_by_platform (platform : String) : Option String :=
  if platform ∈ ["NA1", "BR1", "LA1", "LA2", "OC1"] then some "AMERICAS"
  else if platform ∈ ["EUN1", "EUW1", "TR1", "RU"] then some "EUROPE"
  else if platform ∈ ["KR", "JP1"] then some "ASIA"
  else none

/-- helpers.get_match_mode. -/
def get_match_mode (queue_id : ℤ) : String :=
  if queue_id = 400 then "Normal Draft"
  else if queue_id = 420 then "Ranked Solo"
  else if queue_id = 430 then "Normal Blind"
  else "Special"

/-- helpers.get_summoner_spell: total lookup with sentinel default. -/
def get_summoner_spell (summoner_key : ℤ) : String :=
  if summoner_key = 1 then "summoner_boost"
  else if summoner_key = 3 then "summoner_exhaust"
  else if summoner_key = 4 then "summoner_flash"
  else if summoner_key = 6 then "summoner_haste"
  else if summoner_key = 7 then "summoner_heal"
  else if summoner_key = 11 then "summoner_smite"
  else if summoner_key = 12 then "summoner_teleport"
  else if summoner_key = 13 then "summonermana"
  else if summoner_key = 14 then "summonerignite"
  else if summoner_key = 21 then "summonerbarrier"
  else if summoner_key = 32 then "summoner_mark"
  else "summoner_empty"

/-- helpers.get_rune_secondary: total lookup, everything outside the four
listed style ids falls to the resolve label. -/
def get_rune_secondary (rune_id : ℤ) : String :=
  if rune_id = 8000 then "7201_precision"
  else if rune_id = 8100 then "7200_domination"
  else if rune_id = 8200 then "7202_sorcery"
  else if rune_id = 8300 then "7203_whimsy"
  else "7204_resolve"

/-- One entry of the remote perks table fetched by helpers.get_rune_primary. -/
structure Perk where
  id : ℤ
  iconPath : String
deriving Repr, DecidableEq

/-- Whether the first list is an initial segment of the second. -/
def leadsWith : List Char → List Char → Bool
  | [], _ => true
  | _ :: _, [] => false
  | a :: as, b :: bs => a = b && leadsWith as bs

/-- Worker of strSplit: scan the remaining characters, splitting at each
non-overlapping occurrence of the separator, leftmost first.  The fuel
argument (always at least the length of the remainder) makes the recursion
structural. -/
def splitAux (sep : List Char) : ℕ → List Char → List Char →
    List (List Char)
  | 0, cur, rest => [cur.reverse ++ rest]
  | _ + 1, cur, [] => [cur.reverse]
  | fuel + 1, cur, c :: cs =>
    if leadsWith sep (c :: cs) then
      cur.reverse :: splitAux sep fuel [] ((c :: cs).drop sep.length)
    else splitAux sep fuel (c :: cur) cs

/-- Python s.split(sep) for a non-empty separator, as a structurally
recursive function the kernel can evaluate (the library splitOn is
well-founded and does not reduce definitionally). -/
def strSplit (sep s : String) : List String :=
  (splitAux sep.data s.data.length [] s.data).map (fun l => String.mk l)

/-- Python sep.join(parts). -/
def joinSep (sep : String) : List String → String
  | [] => ""
  | [x] => x
  | x :: xs => x ++ sep ++ joinSep sep xs

/-- Python s.lower(), character by character (the positions the source
lowers are plain ASCII words). -/
def pyLower (s : String) : String := String.mk (s.data.map Char.toLower)

/-- Python s.split(sep, 1)[1]: the part of s after the first occurrence of
sep; none when sep does not occur (IndexError in the source). -/
def pySplit1Tail (sep s : String) : Option String :=
  let parts := strSplit sep s
  if 2 ≤ parts.length then some (joinSep sep (parts.drop 1))
  else none

/-- The next(...) search of helpers.get_rune_primary over the perks table. -/
def find_perk (table : List Perk) (rune_id : ℤ) : Option Perk :=
  table.find? (fun p => p.id = rune_id)

/-- helpers.get_rune_primary, with the remotely fetched perks table as an
explicit parameter.  none models the two failure modes of the source: the
rune id absent from the table (next yields None, the subscript raises
TypeError) or an iconPath without the Styles/ separator (IndexError). -/
def get_rune_primary (table : List Perk) (rune_id : ℤ) : Option String :=
  match find_perk table rune_id with
  | none => none
  | some p => pySplit1Tail "Styles/" p.iconPath

/-- One call of helpers.get_rune_primary issues exactly one HTTP GET of the
perks table: the body runs requests.get(url) unconditionally and nothing is
cached.  The second component threads the process-wide count of remote
fetches performed so far. -/
def get_rune_primary_fetches (table : List Perk) (rune_id : ℤ)
    (fetchCount : ℕ) : Option String × ℕ :=
  (get_rune_primary table rune_id, fetchCount + 1)

/-- Run a sequence of get_rune_primary calls, returning the total number of
remote fetches of the perks table performed. -/
def run_rune_primary_calls (table : List Perk) (ids : List ℤ)
    (fetchCount : ℕ) : ℕ :=
  ids.foldl (fun c i => (get_rune_primary_fetches table i c).2) fetchCount

/-- Patch derivation of interactions.get_match_preview: join of the first
two dot-separated components of the game version, with .1 appended. -/
def patch_of_version (v : String) : String :=
  joinSep "." ((strSplit "." v).take 2) ++ ".1"

/-! ## Data model -/

/-- The fields of one entry of match.info.participants that the pipeline
reads (a ParticipantRecord). -/
structure Participant where
  puuid : String
  kills : ℤ
  deaths : ℤ
  assists : ℤ
  totalMinionsKilled : ℤ
  neutralMinionsKilled : ℤ
  visionScore : ℤ
  goldEarned : ℤ
  totalDamageDealtToChampions : ℤ
  win : Bool
  championName : String
  teamPosition : String
  summoner1Id : ℤ
  summoner2Id : ℤ
  perkPrimary : ℤ
  perkSecondaryStyle : ℤ
  item0 : ℤ
  item1 : ℤ
  item2 : ℤ
  item3 : ℤ
  item4 : ℤ
  item5 : ℤ
  item6 : ℤ
deriving Repr, DecidableEq

/-- The fields of match.info that the pipeline reads (a RawMatch). -/
structure MatchInfo where
  gameDuration : ℤ
  gameCreation : ℤ
  gameMode : String
  queueId : ℤ
  gameVersion : String
  participants : List Participant
deriving Repr, DecidableEq

/-- One stat bucket of Summoner.stats: running total with the two derived
rates recomputed on every fold. -/
structure StatLine where
  total : ℤ
  per_min : ℚ
  per_match : ℚ
deriving Repr, DecidableEq

/-- The five tracked stat buckets of Summoner.stats. -/
structure Stats where
  kills : StatLine
  deaths : StatLine
  assists : StatLine
  minions : StatLine
  vision : StatLine
deriving Repr, DecidableEq

/-- One role bucket of Summoner.roles. -/
structure RoleData where
  num : ℤ
  wins : ℤ
  losses : ℤ
  win_rate : ℤ
deriving Repr, DecidableEq

/-- One entry of the per-champion rollup map Summoner.champions. -/
structure ChampionData where
  num : ℤ
  kills : ℤ
  assists : ℤ
  deaths : ℤ
  kda : ℚ
  wins : ℤ
  losses : ℤ
  win_rate : ℚ
  play_rate : ℚ
  minions : ℤ
  vision : ℤ
  gold : ℤ
  damage : ℤ
  last_played : ℤ
deriving Repr, DecidableEq

/-- The persisted per-player aggregate record (the Summoner model instance
summoner_db).  The two Python dicts roles and champions are modelled as
association lists keyed by role name and champion name.  The source field
matches is renamed matches_count because matches is a reserved word of
Lean. -/
structure SummonerDb where
  matches_count : ℤ
  minutes : ℤ
  stats : Stats
  roles : List (String × RoleData)
  champions : List (String × ChampionData)
deriving Repr, DecidableEq

/-- Dict lookup in an association list (leftmost binding wins; the update
function below keeps keys unique). -/
def dictGet {α : Type} : List (String × α) → String → Option α
  | [], _ => none
  | e :: rest, k => if e.1 = k then some e.2 else dictGet rest k

/-- Dict item assignment: replace the binding of k when present, else
append a new binding. -/
def dictSet {α : Type} : List (String × α) → String → α →
    List (String × α)
  | [], k, v => [(k, v)]
  | e :: rest, k, v =>
    if e.1 = k then (k, v) :: rest else e :: dictSet rest k v

/-! ## Aggregate accumulator (interactions.add_database_ranked_stats) -/

/-- The update applied to each of the five stat buckets by
add_database_ranked_stats: add the contribution of this match to the total,
then recompute both derived rates by fresh division from the new total and
the already-updated minutes and matches counters, rounding to 2 decimals.
The five blocks of the source are this text five times. -/
def update_stat_line (s : StatLine) (contrib minutes m : ℤ) :
    StatLine :=
  let total := s.total + contrib
  { total := total
    per_min := pyRound2 ((total : ℚ) / (minutes : ℚ))
    per_match := pyRound2 ((total : ℚ) / (m : ℚ)) }

/-- interactions.add_database_ranked_stats: one fold of a match into the
aggregate stat totals and their derived rates. -/
def add_database_ranked_stats (db : SummonerDb) (info : MatchInfo)
    (p : Participant) : SummonerDb :=
  let m := db.matches_count + 1
  let minutes := db.minutes + pyRound0 ((info.gameDuration : ℚ) / 60)
  { db with
    matches_count := m
    minutes := minutes
    stats :=
      { kills := update_stat_line db.stats.kills p.kills minutes m
        assists := update_stat_line db.stats.assists p.assists minutes m
        deaths := update_stat_line db.stats.deaths p.deaths minutes m
        minions := update_stat_line db.stats.minions
          (p.totalMinionsKilled + p.neutralMinionsKilled) minutes m
        vision := update_stat_line db.stats.vision p.visionScore minutes
          m } }

/-- A whole fold pass of add_database_ranked_stats over a list of matches,
each given with the participant record of the requesting player. -/
def ranked_stats_fold (db : SummonerDb)
    (l : List (MatchInfo × Participant)) : SummonerDb :=
  l.foldl (fun d mp => add_database_ranked_stats d mp.1 mp.2) db

/-! ## Per-champion rollup (interactions.add_database_champion_stats) -/

/-- The first-sighting branch of add_database_champion_stats: the fresh
rollup entry seeded from this match. -/
def seed_champion (db : SummonerDb) (info : MatchInfo) (p : Participant) :
    ChampionData :=
  { num := 1
    kills := p.kills
    assists := p.assists
    deaths := p.deaths
    kda := if p.deaths ≠ 0 then
        pyRound2 (((p.kills + p.assists : ℤ) : ℚ) / (p.deaths : ℚ))
      else ((p.kills + p.assists : ℤ) : ℚ)
    wins := if p.win then 1 else 0
    losses := if ¬ p.win then 1 else 0
    win_rate := if p.win then 100 else 0
    play_rate := 1 / (db.matches_count : ℚ)
    minions := p.totalMinionsKilled + p.neutralMinionsKilled
    vision := p.visionScore
    gold := p.goldEarned
    damage := p.totalDamageDealtToChampions
    last_played := get_date_by_timestamp info.gameCreation }

/-- The subsequent-sighting branch of add_database_champion_stats: sums are
accumulated, kda, win_rate and play_rate are recomputed from the new sums,
and last_played is overwritten with the date of this match. -/
def update_champion (c : ChampionData) (db : SummonerDb) (info : MatchInfo)
    (p : Participant) : ChampionData :=
  let num := c.num + 1
  let kills := c.kills + p.kills
  let assists := c.assists + p.assists
  let deaths := c.deaths + p.deaths
  let kda := if deaths ≠ 0 then
      pyRound2 (((kills + assists : ℤ) : ℚ) / (deaths : ℚ))
    else ((kills + assists : ℤ) : ℚ)
  let wins := if p.win then c.wins + 1 else c.wins
  let losses := if p.win then c.losses else c.losses + 1
  { num := num
    kills := kills
    assists := assists
    deaths := deaths
    kda := kda
    wins := wins
    losses := losses
    win_rate := pyRound2 ((wins : ℚ) / (num : ℚ) * 100)
    play_rate := pyRound2 ((num : ℚ) / (db.matches_count : ℚ))
    minions := c.minions + (p.totalMinionsKilled + p.neutralMinionsKilled)
    vision := c.vision + p.visionScore
    gold := c.gold + p.goldEarned
    damage := c.damage + p.totalDamageDealtToChampions
    last_played := get_date_by_timestamp info.gameCreation }

/-- interactions.add_database_champion_stats: one fold of a match into the
per-champion rollup map. -/
def add_database_champion_stats (db : SummonerDb) (info : MatchInfo)
    (p : Participant) : SummonerDb :=
  match dictGet db.champions p.championName with
  | none =>
      { db with champions :=
          dictSet db.champions p.championName (seed_champion db info p) }
  | some c =>
      { db with champions :=
          dictSet db.champions p.championName (update_champion c db info p) }

/-! ## Match enrichment (interactions.get_match_preview) -/

/-- The Python runtime errors the pipeline can raise, plus the explicit
raise of the retry loops. -/
inductive PyError where
  /-- UnboundLocalError: a local variable read before any assignment. -/
  | unboundLocal
  /-- KeyError on a dict subscript; carries the missing key. -/
  | keyErr (key : String)
  /-- The raise Exception of the retry loops after three failed attempts. -/
  | maxAttempts
  /-- The defensive failure of the requester-participant lookup. -/
  | participantNotFound
  /-- TypeError or IndexError inside helpers.get_rune_primary when the rune
  id is absent from the perks table or the iconPath has no Styles/ part. -/
  | runePrimaryFailed
deriving Repr, DecidableEq

/-- Queue ids filtered by get_match_preview: 0 is custom matches; 2000,
2010 and 2020 are tutorial matches. -/
def excludedQueues : List ℤ := [0, 2000, 2010, 2020]

/-- The enriched requester record (the reshaped player_summary value). -/
structure PlayerSummary where
  base : Participant
  kda : ℚ
  summoner_spell_1 : String
  summoner_spell_2 : String
  rune_primary : String
  rune_secondary : String
  items : List ℤ
deriving Repr, DecidableEq

/-- The dict returned by get_match_preview.  The keys set only inside the
enrichment branch (player_summary, date, patch, match_mode) are Options:
none models their absence from the returned dict when the queue id is
excluded and the branch is skipped. -/
structure MatchDict where
  info : MatchInfo
  player_summary : Option PlayerSummary
  date : Option ℤ
  patch : Option String
  match_mode : Option String
  matchups : List (Participant × Participant)
deriving Repr, DecidableEq

/-- Modelled from the spec: helpers.get_participant_number is called by
interactions.get_match_preview but its definition is not under src/.
Spec 4.4 step 1: locate the requester record by matching the global id
(puuid) against the participant list; absence is a defensive error rather
than an index fault. -/
def get_participant_number (info : MatchInfo) (puuid : String) : Option ℕ :=
  info.participants.findIdx? (fun p => p.puuid = puuid)

/-- Modelled from the spec: helpers.get_preview_stats is called by
interactions.get_match_preview but its definition is not under src/.  The
spec describes no change it makes to any field the claims touch, so it is
modelled as returning the player summary unchanged. -/
def get_preview_stats (ps : PlayerSummary) : PlayerSummary := ps

/-- The body of the HTTP 200 branch of interactions.get_match_preview: the
queue-id guard and, inside it, the whole enrichment of the requester
record.  The remotely fetched perks table of helpers.get_rune_primary is
an explicit parameter.  Note that the final return of the source sits
outside the queue-id guard: an excluded match is returned raw, with none
of the enrichment keys set. -/
def enrich_match (table : List Perk) (info : MatchInfo) (puuid : String) :
    Except PyError MatchDict :=
  if info.queueId ∈ excludedQueues then
    Except.ok { info := info, player_summary := none, date := none,
                patch := none, match_mode := none, matchups := [] }
  else
    match get_participant_number info puuid with
    | none => Except.error PyError.participantNotFound
    | some n =>
      match info.participants.get? n with
      | none => Except.error PyError.participantNotFound
      | some p =>
        match get_rune_primary table p.perkPrimary with
        | none => Except.error PyError.runePrimaryFailed
        | some runePath =>
          let ps : PlayerSummary :=
            { base := p
              kda := if p.deaths = 0 then ((p.kills + p.assists : ℤ) : ℚ)
                else pyRound2 (((p.kills + p.assists : ℤ) : ℚ) /
                  (p.deaths : ℚ))
              summoner_spell_1 := get_summoner_spell p.summoner1Id
              summoner_spell_2 := get_summoner_spell p.summoner2Id
              rune_primary := runePath
              rune_secondary := get_rune_secondary p.perkSecondaryStyle
              items := [p.item0, p.item1, p.item2, p.item6, p.item3,
                        p.item4, p.item5] }
          Except.ok
            { info := info
              player_summary := some (get_preview_stats ps)
              date := some (get_date_by_timestamp info.gameCreation)
              patch := some (patch_of_version info.gameVersion)
              match_mode := some (if info.gameMode = "CLASSIC" then
                  get_match_mode info.queueId
                else info.gameMode)
              matchups := (info.participants.take 5).zip
                (info.participants.drop 5) }

/-- One HTTP response of the remote session, as classified by the retry
loop of get_match_preview. -/
inductive HttpResp where
  /-- Status 200 with the match body. -/
  | ok (body : MatchInfo)
  /-- Status 429 with the Retry-After header in seconds. -/
  | rateLimited (retryAfter : ℕ)
  /-- Any other status: the loop neither returns nor sleeps. -/
  | otherStatus (code : ℕ)
deriving Repr, DecidableEq

/-- The retry loop of interactions.get_match_preview, driven by the script
of responses the session produces, one per loop iteration.  attempts is
the loop counter; sleeps accumulates the Retry-After durations slept so
far, so the result also records how often the task suspended.  An
exhausted script is judged like exhausted attempts (the theorems always
supply one response per permitted attempt). -/
def get_match_preview_go (table : List Perk) (puuid : String) :
    List HttpResp → ℕ → List ℕ → Except PyError (MatchDict × List ℕ)
  | [], _, _ => Except.error PyError.maxAttempts
  | r :: rest, attempts, sleeps =>
    if 3 ≤ attempts then Except.error PyError.maxAttempts
    else
      match r with
      | HttpResp.ok body =>
          (enrich_match table body puuid).map (fun md => (md, sleeps))
      | HttpResp.rateLimited ra =>
          get_match_preview_go table puuid rest (attempts + 1)
            (sleeps ++ [ra])
      | HttpResp.otherStatus _ =>
          get_match_preview_go table puuid rest (attempts + 1) sleeps

/-- interactions.get_match_preview on a fresh session: the retry loop
started with zero attempts and no suspensions performed. -/
def get_match_preview (table : List Perk) (puuid : String)
    (resps : List HttpResp) : Except PyError (MatchDict × List ℕ) :=
  get_match_preview_go table puuid resps 0 []

/-! ## Fold pass and fan-out (interactions.get_match_preview_list) -/

/-- asyncio.gather with the default return_exceptions=False: an exception
raised by any task propagates to the awaiting caller and no list of
results is produced. -/
def gather {α : Type} : List (Except PyError α) → Except PyError (List α)
  | [] => Except.ok []
  | x :: xs =>
    match x with
    | Except.error e => Except.error e
    | Except.ok a => (gather xs).map (fun l => a :: l)

/-- The role-bucket update of the fold loop in get_match_preview_list:
subscripting summoner_db.roles with a position absent from the dict raises
KeyError; otherwise num, the win or loss counter and the refreshed integer
win rate are stored back. -/
def update_role (db : SummonerDb) (position : String) (win : Bool) :
    Except PyError SummonerDb :=
  match dictGet db.roles position with
  | none => Except.error (PyError.keyErr position)
  | some r =>
    let num := r.num + 1
    let wins := if win then r.wins + 1 else r.wins
    let losses := if win then r.losses else r.losses + 1
    let win_rate := pyTrunc ((wins : ℚ) / (num : ℚ) * 100)
    let rd : RoleData :=
      { num := num, wins := wins, losses := losses, win_rate := win_rate }
    Except.ok { db with roles := dictSet db.roles position rd }

/-- The body of the fold loop of get_match_preview_list for one gathered
match: reading player_summary of a raw (queue-excluded) match raises
KeyError; a CLASSIC match with a non-empty lower-cased team position
updates the role bucket and folds into the ranked and champion stats; any
other match leaves the record untouched. -/
def fold_preview (db : SummonerDb) (m : MatchDict) :
    Except PyError SummonerDb :=
  match m.player_summary with
  | none => Except.error (PyError.keyErr "player_summary")
  | some ps =>
    let position := pyLower ps.base.teamPosition
    if m.info.gameMode = "CLASSIC" ∧ position ≠ "" then
      match update_role db position ps.base.win with
      | Except.error e => Except.error e
      | Except.ok db1 =>
        let db2 := add_database_ranked_stats db1 m.info ps.base
        Except.ok (add_database_champion_stats db2 m.info ps.base)
    else Except.ok db

/-- interactions.get_match_preview_list.  The matches argument is given as
one response script per not-yet-cached match id (URL construction and the
platform-to-region resolution are connection plumbing and are not
modelled).  When the list is empty the whole if-block is skipped, the
local variable match_preview_list is never assigned, and the bare return
statement reading it raises UnboundLocalError.  Otherwise all fetches are
gathered and each gathered match is folded into the record. -/
def get_match_preview_list (table : List Perk)
    (matchScripts : List (List HttpResp)) (db : SummonerDb)
    (puuid : String) : Except PyError (SummonerDb × List MatchDict) :=
  match matchScripts with
  | [] => Except.error PyError.unboundLocal
  | _ :: _ =>
    match gather (matchScripts.map (fun s => get_match_preview table puuid s))
      with
    | Except.error e => Except.error e
    | Except.ok results =>
      let previews := results.map Prod.fst
      match previews.foldlM fold_preview db with
      | Except.error e => Except.error e
      | Except.ok db1 => Except.ok (db1, previews)

/-! ## Concrete sample data for witnesses and counterexamples -/

/-- A perks-table entry as fetched by get_rune_primary. -/
def samplePerk : Perk :=
  { id := 8112
    iconPath := "perk-images/Styles/Domination/Electrocute/Electrocute.png" }

/-- A one-entry perks table. -/
def sampleTable : List Perk := [samplePerk]

/-- A concrete requester participant record. -/
def samplePart : Participant :=
  { puuid := "puuid-1"
    kills := 5
    deaths := 2
    assists := 7
    totalMinionsKilled := 100
    neutralMinionsKilled := 20
    visionScore := 15
    goldEarned := 9000
    totalDamageDealtToChampions := 12000
    win := true
    championName := "Ahri"
    teamPosition := "MIDDLE"
    summoner1Id := 4
    summoner2Id := 14
    perkPrimary := 8112
    perkSecondaryStyle := 8200
    item0 := 10
    item1 := 11
    item2 := 12
    item3 := 13
    item4 := 14
    item5 := 15
    item6 := 16 }

/-- A concrete ranked CLASSIC match containing the requester. -/
def sampleInfo : MatchInfo :=
  { gameDuration := 1800
    gameCreation := 1637712000000
    gameMode := "CLASSIC"
    queueId := 420
    gameVersion := "11.23.409.111"
    participants := [samplePart] }

/-- The same match with the custom-game queue id 0, which
get_match_preview excludes from enrichment. -/
def sampleCustomInfo : MatchInfo := { sampleInfo with queueId := 0 }

/-- An empty stat bucket. -/
def zeroLine : StatLine := { total := 0, per_min := 0, per_match := 0 }

/-- A freshly created aggregate record. -/
def sampleDb : SummonerDb :=
  { matches_count := 0
    minutes := 0
    stats := { kills := zeroLine, deaths := zeroLine, assists := zeroLine,
               minions := zeroLine, vision := zeroLine }
    roles := []
    champions := [] }

/-- Extract the value of a successful Except, with a fallback. -/
def exceptOkD {α : Type} (d : α) : Except PyError α → α
  | Except.ok a => a
  | Except.error _ => d

/-- True exactly on a successful Except. -/
def exceptIsOk {α : Type} : Except PyError α → Bool
  | Except.ok _ => true
  | Except.error _ => false

/-- The raw MatchDict of a queue-excluded match. -/
def rawDict (info : MatchInfo) : MatchDict :=
  { info := info, player_summary := none, date := none, patch := none,
    match_mode := none, matchups := [] }

/-- The enrichment result of the sample match, extracted. -/
def sampleMd : MatchDict :=
  exceptOkD (rawDict sampleInfo) (enrich_match sampleTable sampleInfo "puuid-1")

/-- The enriched player summary of the sample match, extracted. -/
def samplePs : PlayerSummary :=
  sampleMd.player_summary.getD
    { base := samplePart, kda := 0, summoner_spell_1 := "",
      summoner_spell_2 := "", rune_primary := "", rune_secondary := "",
      items := [] }

/-- A queue-excluded response script paired with a successful one, for the
batch-abort counterexample. -/
def exhaustedScript : List HttpResp :=
  [HttpResp.rateLimited 1, HttpResp.rateLimited 1, HttpResp.rateLimited 1]

/-! ## Lemmas about the ranked-stats accumulator -/

lemma step_matches_count (db : SummonerDb) (info : MatchInfo)
    (p : Participant) :
    (add_database_ranked_stats db info p).matches_count
      = db.matches_count + 1 := rfl

lemma step_minutes (db : SummonerDb) (info : MatchInfo) (p : Participant) :
    (add_database_ranked_stats db info p).minutes
      = db.minutes + pyRound0 ((info.gameDuration : ℚ) / 60) := rfl

lemma step_kills_total (db : SummonerDb) (info : MatchInfo)
    (p : Participant) :
    (add_database_ranked_stats db info p).stats.kills.total
      = db.stats.kills.total + p.kills := rfl

lemma step_assists_total (db : SummonerDb) (info : MatchInfo)
    (p : Participant) :
    (add_database_ranked_stats db info p).stats.assists.total
      = db.stats.assists.total + p.assists := rfl

lemma step_deaths_total (db : SummonerDb) (info : MatchInfo)
    (p : Participant) :
    (add_database_ranked_stats db info p).stats.deaths.total
      = db.stats.deaths.total + p.deaths := rfl

lemma step_minions_total (db : SummonerDb) (info : MatchInfo)
    (p : Participant) :
    (add_database_ranked_stats db info p).stats.minions.total
      = db.stats.minions.total
        + (p.totalMinionsKilled + p.neutralMinionsKilled) := rfl

lemma step_vision_total (db : SummonerDb) (info : MatchInfo)
    (p : Participant) :
    (add_database_ranked_stats db info p).stats.vision.total
      = db.stats.vision.total + p.visionScore := rfl

lemma ranked_fold_cons (db : SummonerDb) (x : MatchInfo × Participant)
    (l : List (MatchInfo × Participant)) :
    ranked_stats_fold db (x :: l)
      = ranked_stats_fold (add_database_ranked_stats db x.1 x.2) l := rfl

/-- Totals after a whole fold pass are the initial totals plus the sum of
the per-match contributions. -/
lemma ranked_fold_totals (l : List (MatchInfo × Participant)) :
    ∀ db : SummonerDb,
    (ranked_stats_fold db l).matches_count = db.matches_count + l.length ∧
    (ranked_stats_fold db l).minutes
      = db.minutes
        + (l.map (fun mp => pyRound0 ((mp.1.gameDuration : ℚ) / 60))).sum ∧
    (ranked_stats_fold db l).stats.kills.total
      = db.stats.kills.total + (l.map (fun mp => mp.2.kills)).sum ∧
    (ranked_stats_fold db l).stats.assists.total
      = db.stats.assists.total + (l.map (fun mp => mp.2.assists)).sum ∧
    (ranked_stats_fold db l).stats.deaths.total
      = db.stats.deaths.total + (l.map (fun mp => mp.2.deaths)).sum ∧
    (ranked_stats_fold db l).stats.minions.total
      = db.stats.minions.total
        + (l.map (fun mp =>
            mp.2.totalMinionsKilled + mp.2.neutralMinionsKilled)).sum ∧
    (ranked_stats_fold db l).stats.vision.total
      = db.stats.vision.total + (l.map (fun mp => mp.2.visionScore)).sum := by
  induction l with
  | nil => intro db; simp [ranked_stats_fold]
  | cons x xs ih =>
    intro db
    obtain ⟨h1, h2, h3, h4, h5, h6, h7⟩ :=
      ih (add_database_ranked_stats db x.1 x.2)
    rw [ranked_fold_cons]
    refine ⟨?_, ?_, ?_, ?_, ?_, ?_, ?_⟩
    · rw [h1, step_matches_count]; simp; ring
    · rw [h2, step_minutes]; simp; ring
    · rw [h3, step_kills_total]; simp; ring
    · rw [h4, step_assists_total]; simp; ring
    · rw [h5, step_deaths_total]; simp; ring
    · rw [h6, step_minions_total]; simp; ring
    · rw [h7, step_vision_total]; simp; ring

/-- After any non-empty fold pass, every derived field equals the fresh
division of the current totals, rounded to two decimals: the derived
fields never drift. -/
lemma ranked_fold_fresh (l : List (MatchInfo × Participant)) :
    ∀ (db : SummonerDb) (x : MatchInfo × Participant),
    ((ranked_stats_fold db (x :: l)).stats.kills.per_min
        = pyRound2 (((ranked_stats_fold db (x :: l)).stats.kills.total : ℚ)
            / ((ranked_stats_fold db (x :: l)).minutes : ℚ))) ∧
    ((ranked_stats_fold db (x :: l)).stats.kills.per_match
        = pyRound2 (((ranked_stats_fold db (x :: l)).stats.kills.total : ℚ)
            / ((ranked_stats_fold db (x :: l)).matches_count : ℚ))) ∧
    ((ranked_stats_fold db (x :: l)).stats.assists.per_min
        = pyRound2 (((ranked_stats_fold db (x :: l)).stats.assists.total : ℚ)
            / ((ranked_stats_fold db (x :: l)).minutes : ℚ))) ∧
    ((ranked_stats_fold db (x :: l)).stats.assists.per_match
        = pyRound2 (((ranked_stats_fold db (x :: l)).stats.assists.total : ℚ)
            / ((ranked_stats_fold db (x :: l)).matches_count : ℚ))) ∧
    ((ranked_stats_fold db (x :: l)).stats.deaths.per_min
        = pyRound2 (((ranked_stats_fold db (x :: l)).stats.deaths.total : ℚ)
            / ((ranked_stats_fold db (x :: l)).minutes : ℚ))) ∧
    ((ranked_stats_fold db (x :: l)).stats.deaths.per_match
        = pyRound2 (((ranked_stats_fold db (x :: l)).stats.deaths.total : ℚ)
            / ((ranked_stats_fold db (x :: l)).matches_count : ℚ))) ∧
    ((ranked_stats_fold db (x :: l)).stats.minions.per_min
        = pyRound2 (((ranked_stats_fold db (x :: l)).stats.minions.total : ℚ)
            / ((ranked_stats_fold db (x :: l)).minutes : ℚ))) ∧
    ((ranked_stats_fold db (x :: l)).stats.minions.per_match
        = pyRound2 (((ranked_stats_fold db (x :: l)).stats.minions.total : ℚ)
            / ((ranked_stats_fold db (x :: l)).matches_count : ℚ))) ∧
    ((ranked_stats_fold db (x :: l)).stats.vision.per_min
        = pyRound2 (((ranked_stats_fold db (x :: l)).stats.vision.total : ℚ)
            / ((ranked_stats_fold db (x :: l)).minutes : ℚ))) ∧
    ((ranked_stats_fold db (x :: l)).stats.vision.per_match
        = pyRound2 (((ranked_stats_fold db (x :: l)).stats.vision.total : ℚ)
            / ((ranked_stats_fold db (x :: l)).matches_count : ℚ))) := by
  induction l with
  | nil =>
    intro db x
    exact ⟨rfl, rfl, rfl, rfl, rfl, rfl, rfl, rfl, rfl, rfl⟩
  | cons y ys ih =>
    intro db x
    rw [ranked_fold_cons]
    exact ih (add_database_ranked_stats db x.1 x.2) y

/-- C1: every fold of a match by add_database_ranked_stats increases each
tracked stat total by exactly the contribution of that match (minions
being lane plus neutral minions), and afterwards per_min and per_match
equal the fresh quotients of the current total by the updated minutes and
matches counters, rounded to two decimals; consequently after any
non-empty sequence of folds the totals equal the initial totals plus the
sums of the per-match contributions and the derived fields agree with
fresh division of the current totals. -/
theorem ranked_stats_fold_correct (db : SummonerDb) (info : MatchInfo)
    (p : Participant) (l : List (MatchInfo × Participant)) (h : l ≠ []) :
    ((add_database_ranked_stats db info p).matches_count
        = db.matches_count + 1 ∧
      (add_database_ranked_stats db info p).minutes
        = db.minutes + pyRound0 ((info.gameDuration : ℚ) / 60) ∧
      (add_database_ranked_stats db info p).stats.kills.total
        = db.stats.kills.total + p.kills ∧
      (add_database_ranked_stats db info p).stats.assists.total
        = db.stats.assists.total + p.assists ∧
      (add_database_ranked_stats db info p).stats.deaths.total
        = db.stats.deaths.total + p.deaths ∧
      (add_database_ranked_stats db info p).stats.minions.total
        = db.stats.minions.total
          + (p.totalMinionsKilled + p.neutralMinionsKilled) ∧
      (add_database_ranked_stats db info p).stats.vision.total
        = db.stats.vision.total + p.visionScore) ∧
    ((add_database_ranked_stats db info p).stats.kills.per_min
        = pyRound2
          (((add_database_ranked_stats db info p).stats.kills.total : ℚ)
            / ((add_database_ranked_stats db info p).minutes : ℚ)) ∧
      (add_database_ranked_stats db info p).stats.kills.per_match
        = pyRound2
          (((add_database_ranked_stats db info p).stats.kills.total : ℚ)
            / ((add_database_ranked_stats db info p).matches_count : ℚ)) ∧
      (add_database_ranked_stats db info p).stats.assists.per_min
        = pyRound2
          (((add_database_ranked_stats db info p).stats.assists.total : ℚ)
            / ((add_database_ranked_stats db info p).minutes : ℚ)) ∧
      (add_database_ranked_stats db info p).stats.assists.per_match
        = pyRound2
          (((add_database_ranked_stats db info p).stats.assists.total : ℚ)
            / ((add_database_ranked_stats db info p).matches_count : ℚ)) ∧
      (add_database_ranked_stats db info p).stats.deaths.per_min
        = pyRound2
          (((add_database_ranked_stats db info p).stats.deaths.total : ℚ)
            / ((add_database_ranked_stats db info p).minutes : ℚ)) ∧
      (add_database_ranked_stats db info p).stats.deaths.per_match
        = pyRound2
          (((add_database_ranked_stats db info p).stats.deaths.total : ℚ)
            / ((add_database_ranked_stats db info p).matches_count : ℚ)) ∧
      (add_database_ranked_stats db info p).stats.minions.per_min
        = pyRound2
          (((add_database_ranked_stats db info p).stats.minions.total : ℚ)
            / ((add_database_ranked_stats db info p).minutes : ℚ)) ∧
      (add_database_ranked_stats db info p).stats.minions.per_match
        = pyRound2
          (((add_database_ranked_stats db info p).stats.minions.total : ℚ)
            / ((add_database_ranked_stats db info p).matches_count : ℚ)) ∧
      (add_database_ranked_stats db info p).stats.vision.per_min
        = pyRound2
          (((add_database_ranked_stats db info p).stats.vision.total : ℚ)
            / ((add_database_ranked_stats db info p).minutes : ℚ)) ∧
      (add_database_ranked_stats db info p).stats.vision.per_match
        = pyRound2
          (((add_database_ranked_stats db info p).stats.vision.total : ℚ)
            / ((add_database_ranked_stats db info p).matches_count : ℚ))) ∧
    ((ranked_stats_fold db l).matches_count = db.matches_count + l.length ∧
      (ranked_stats_fold db l).minutes
        = db.minutes
          + (l.map (fun mp => pyRound0 ((mp.1.gameDuration : ℚ) / 60))).sum ∧
      (ranked_stats_fold db l).stats.kills.total
        = db.stats.kills.total + (l.map (fun mp => mp.2.kills)).sum ∧
      (ranked_stats_fold db l).stats.assists.total
        = db.stats.assists.total + (l.map (fun mp => mp.2.assists)).sum ∧
      (ranked_stats_fold db l).stats.deaths.total
        = db.stats.deaths.total + (l.map (fun mp => mp.2.deaths)).sum ∧
      (ranked_stats_fold db l).stats.minions.total
        = db.stats.minions.total
          + (l.map (fun mp =>
              mp.2.totalMinionsKilled + mp.2.neutralMinionsKilled)).sum ∧
      (ranked_stats_fold db l).stats.vision.total
        = db.stats.vision.total
          + (l.map (fun mp => mp.2.visionScore)).sum) ∧
    ((ranked_stats_fold db l).stats.kills.per_min
        = pyRound2 (((ranked_stats_fold db l).stats.kills.total : ℚ)
            / ((ranked_stats_fold db l).minutes : ℚ)) ∧
      (ranked_stats_fold db l).stats.kills.per_match
        = pyRound2 (((ranked_stats_fold db l).stats.kills.total : ℚ)
            / ((ranked_stats_fold db l).matches_count : ℚ)) ∧
      (ranked_stats_fold db l).stats.assists.per_min
        = pyRound2 (((ranked_stats_fold db l).stats.assists.total : ℚ)
            / ((ranked_stats_fold db l).minutes : ℚ)) ∧
      (ranked_stats_fold db l).stats.assists.per_match
        = pyRound2 (((ranked_stats_fold db l).stats.assists.total : ℚ)
            / ((ranked_stats_fold db l).matches_count : ℚ)) ∧
      (ranked_stats_fold db l).stats.deaths.per_min
        = pyRound2 (((ranked_stats_fold db l).stats.deaths.total : ℚ)
            / ((ranked_stats_fold db l).minutes : ℚ)) ∧
      (ranked_stats_fold db l).stats.deaths.per_match
        = pyRound2 (((ranked_stats_fold db l).stats.deaths.total : ℚ)
            / ((ranked_stats_fold db l).matches_count : ℚ)) ∧
      (ranked_stats_fold db l).stats.minions.per_min
        = pyRound2 (((ranked_stats_fold db l).stats.minions.total : ℚ)
            / ((ranked_stats_fold db l).minutes : ℚ)) ∧
      (ranked_stats_fold db l).stats.minions.per_match
        = pyRound2 (((ranked_stats_fold db l).stats.minions.total : ℚ)
            / ((ranked_stats_fold db l).matches_count : ℚ)) ∧
      (ranked_stats_fold db l).stats.vision.per_min
        = pyRound2 (((ranked_stats_fold db l).stats.vision.total : ℚ)
            / ((ranked_stats_fold db l).minutes : ℚ)) ∧
      (ranked_stats_fold db l).stats.vision.per_match
        = pyRound2 (((ranked_stats_fold db l).stats.vision.total : ℚ)
            / ((ranked_stats_fold db l).matches_count : ℚ))) := by
  obtain ⟨x, xs, rfl⟩ := List.exists_cons_of_ne_nil h
  refine ⟨⟨rfl, rfl, rfl, rfl, rfl, rfl, rfl⟩,
          ⟨rfl, rfl, rfl, rfl, rfl, rfl, rfl, rfl, rfl, rfl⟩,
          ranked_fold_totals (x :: xs) db,
          ranked_fold_fresh xs db x⟩

/-- A one-match fold list for the witness of the C1 theorem. -/
def sampleFoldList : List (MatchInfo × Participant) := [(sampleInfo, samplePart)]

/-- Witness for the C1 theorem at concrete inputs. -/
theorem ranked_stats_fold_correct_witness :
    (sampleFoldList ≠ []) ∧
(    ((add_database_ranked_stats sampleDb sampleInfo samplePart).matches_count
        = sampleDb.matches_count + 1 ∧
      (add_database_ranked_stats sampleDb sampleInfo samplePart).minutes
        = sampleDb.minutes + pyRound0 ((sampleInfo.gameDuration : ℚ) / 60) ∧
      (add_database_ranked_stats sampleDb sampleInfo samplePart).stats.kills.total
        = sampleDb.stats.kills.total + samplePart.kills ∧
      (add_database_ranked_stats sampleDb sampleInfo samplePart).stats.assists.total
        = sampleDb.stats.assists.total + samplePart.assists ∧
      (add_database_ranked_stats sampleDb sampleInfo samplePart).stats.deaths.total
        = sampleDb.stats.deaths.total + samplePart.deaths ∧
      (add_database_ranked_stats sampleDb sampleInfo samplePart).stats.minions.total
        = sampleDb.stats.minions.total
          + (samplePart.totalMinionsKilled + samplePart.neutralMinionsKilled) ∧
      (add_database_ranked_stats sampleDb sampleInfo samplePart).stats.vision.total
        = sampleDb.stats.vision.total + samplePart.visionScore) ∧
    ((add_database_ranked_stats sampleDb sampleInfo samplePart).stats.kills.per_min
        = pyRound2
          (((add_database_ranked_stats sampleDb sampleInfo samplePart).stats.kills.total : ℚ)
            / ((add_database_ranked_stats sampleDb sampleInfo samplePart).minutes : ℚ)) ∧
      (add_database_ranked_stats sampleDb sampleInfo samplePart).stats.kills.per_match
        = pyRound2
          (((add_database_ranked_stats sampleDb sampleInfo samplePart).stats.kills.total : ℚ)
            / ((add_database_ranked_stats sampleDb sampleInfo samplePart).matches_count : ℚ)) ∧
      (add_database_ranked_stats sampleDb sampleInfo samplePart).stats.assists.per_min
        = pyRound2
          (((add_database_ranked_stats sampleDb sampleInfo samplePart).stats.assists.total : ℚ)
            / ((add_database_ranked_stats sampleDb sampleInfo samplePart).minutes : ℚ)) ∧
      (add_database_ranked_stats sampleDb sampleInfo samplePart).stats.assists.per_match
        = pyRound2
          (((add_database_ranked_stats sampleDb sampleInfo samplePart).stats.assists.total : ℚ)
            / ((add_database_ranked_stats sampleDb sampleInfo samplePart).matches_count : ℚ)) ∧
      (add_database_ranked_stats sampleDb sampleInfo samplePart).stats.deaths.per_min
        = pyRound2
          (((add_database_ranked_stats sampleDb sampleInfo samplePart).stats.deaths.total : ℚ)
            / ((add_database_ranked_stats sampleDb sampleInfo samplePart).minutes : ℚ)) ∧
      (add_database_ranked_stats sampleDb sampleInfo samplePart).stats.deaths.per_match
        = pyRound2
          (((add_database_ranked_stats sampleDb sampleInfo samplePart).stats.deaths.total : ℚ)
            / ((add_database_ranked_stats sampleDb sampleInfo samplePart).matches_count : ℚ)) ∧
      (add_database_ranked_stats sampleDb sampleInfo samplePart).stats.minions.per_min
        = pyRound2
          (((add_database_ranked_stats sampleDb sampleInfo samplePart).stats.minions.total : ℚ)
            / ((add_database_ranked_stats sampleDb sampleInfo samplePart).minutes : ℚ)) ∧
      (add_database_ranked_stats sampleDb sampleInfo samplePart).stats.minions.per_match
        = pyRound2
          (((add_database_ranked_stats sampleDb sampleInfo samplePart).stats.minions.total : ℚ)
            / ((add_database_ranked_stats sampleDb sampleInfo samplePart).matches_count : ℚ)) ∧
      (add_database_ranked_stats sampleDb sampleInfo samplePart).stats.vision.per_min
        = pyRound2
          (((add_database_ranked_stats sampleDb sampleInfo samplePart).stats.vision.total : ℚ)
            / ((add_database_ranked_stats sampleDb sampleInfo samplePart).minutes : ℚ)) ∧
      (add_database_ranked_stats sampleDb sampleInfo samplePart).stats.vision.per_match
        = pyRound2
          (((add_database_ranked_stats sampleDb sampleInfo samplePart).stats.vision.total : ℚ)
            / ((add_database_ranked_stats sampleDb sampleInfo samplePart).matches_count : ℚ))) ∧
    ((ranked_stats_fold sampleDb sampleFoldList).matches_count = sampleDb.matches_count + sampleFoldList.length ∧
      (ranked_stats_fold sampleDb sampleFoldList).minutes
        = sampleDb.minutes
          + (sampleFoldList.map (fun mp => pyRound0 ((mp.1.gameDuration : ℚ) / 60))).sum ∧
      (ranked_stats_fold sampleDb sampleFoldList).stats.kills.total
        = sampleDb.stats.kills.total + (sampleFoldList.map (fun mp => mp.2.kills)).sum ∧
      (ranked_stats_fold sampleDb sampleFoldList).stats.assists.total
        = sampleDb.stats.assists.total + (sampleFoldList.map (fun mp => mp.2.assists)).sum ∧
      (ranked_stats_fold sampleDb sampleFoldList).stats.deaths.total
        = sampleDb.stats.deaths.total + (sampleFoldList.map (fun mp => mp.2.deaths)).sum ∧
      (ranked_stats_fold sampleDb sampleFoldList).stats.minions.total
        = sampleDb.stats.minions.total
          + (sampleFoldList.map (fun mp =>
              mp.2.totalMinionsKilled + mp.2.neutralMinionsKilled)).sum ∧
      (ranked_stats_fold sampleDb sampleFoldList).stats.vision.total
        = sampleDb.stats.vision.total
          + (sampleFoldList.map (fun mp => mp.2.visionScore)).sum) ∧
    ((ranked_stats_fold sampleDb sampleFoldList).stats.kills.per_min
        = pyRound2 (((ranked_stats_fold sampleDb sampleFoldList).stats.kills.total : ℚ)
            / ((ranked_stats_fold sampleDb sampleFoldList).minutes : ℚ)) ∧
      (ranked_stats_fold sampleDb sampleFoldList).stats.kills.per_match
        = pyRound2 (((ranked_stats_fold sampleDb sampleFoldList).stats.kills.total : ℚ)
            / ((ranked_stats_fold sampleDb sampleFoldList).matches_count : ℚ)) ∧
      (ranked_stats_fold sampleDb sampleFoldList).stats.assists.per_min
        = pyRound2 (((ranked_stats_fold sampleDb sampleFoldList).stats.assists.total : ℚ)
            / ((ranked_stats_fold sampleDb sampleFoldList).minutes : ℚ)) ∧
      (ranked_stats_fold sampleDb sampleFoldList).stats.assists.per_match
        = pyRound2 (((ranked_stats_fold sampleDb sampleFoldList).stats.assists.total : ℚ)
            / ((ranked_stats_fold sampleDb sampleFoldList).matches_count : ℚ)) ∧
      (ranked_stats_fold sampleDb sampleFoldList).stats.deaths.per_min
        = pyRound2 (((ranked_stats_fold sampleDb sampleFoldList).stats.deaths.total : ℚ)
            / ((ranked_stats_fold sampleDb sampleFoldList).minutes : ℚ)) ∧
      (ranked_stats_fold sampleDb sampleFoldList).stats.deaths.per_match
        = pyRound2 (((ranked_stats_fold sampleDb sampleFoldList).stats.deaths.total : ℚ)
            / ((ranked_stats_fold sampleDb sampleFoldList).matches_count : ℚ)) ∧
      (ranked_stats_fold sampleDb sampleFoldList).stats.minions.per_min
        = pyRound2 (((ranked_stats_fold sampleDb sampleFoldList).stats.minions.total : ℚ)
            / ((ranked_stats_fold sampleDb sampleFoldList).minutes : ℚ)) ∧
      (ranked_stats_fold sampleDb sampleFoldList).stats.minions.per_match
        = pyRound2 (((ranked_stats_fold sampleDb sampleFoldList).stats.minions.total : ℚ)
            / ((ranked_stats_fold sampleDb sampleFoldList).matches_count : ℚ)) ∧
      (ranked_stats_fold sampleDb sampleFoldList).stats.vision.per_min
        = pyRound2 (((ranked_stats_fold sampleDb sampleFoldList).stats.vision.total : ℚ)
            / ((ranked_stats_fold sampleDb sampleFoldList).minutes : ℚ)) ∧
      (ranked_stats_fold sampleDb sampleFoldList).stats.vision.per_match
        = pyRound2 (((ranked_stats_fold sampleDb sampleFoldList).stats.vision.total : ℚ)
            / ((ranked_stats_fold sampleDb sampleFoldList).matches_count : ℚ)))) :=
  ⟨by decide,
    ranked_stats_fold_correct sampleDb sampleInfo samplePart sampleFoldList
      (by decide)⟩

/-! ## Lemmas about the per-champion rollup -/

lemma dictGet_dictSet_self {α : Type} (m : List (String × α)) (k : String)
    (v : α) : dictGet (dictSet m k v) k = some v := by
  induction m with
  | nil => simp [dictGet, dictSet]
  | cons e rest ih =>
    by_cases h : e.1 = k
    · simp [dictSet, h, dictGet]
    · simp [dictSet, h, dictGet, ih]

/-- C4: the per-champion rollup fold.  On first sighting of a champion the
entry is created with count 1 and every field seeded from this match; on a
subsequent sighting the sums are accumulated, win_rate and play_rate are
recomputed as two-decimal wins/count*100 and count/matches, and
last_played is overwritten with the date of this match, whatever it held
before. -/
theorem champion_rollup_correct (db : SummonerDb) (info : MatchInfo)
    (p : Participant) :
    (dictGet db.champions p.championName = none →
      dictGet (add_database_champion_stats db info p).champions
          p.championName = some (seed_champion db info p) ∧
      (seed_champion db info p).num = 1 ∧
      (seed_champion db info p).kills = p.kills ∧
      (seed_champion db info p).assists = p.assists ∧
      (seed_champion db info p).deaths = p.deaths ∧
      (seed_champion db info p).wins = (if p.win then 1 else 0) ∧
      (seed_champion db info p).losses = (if ¬ p.win then 1 else 0) ∧
      (seed_champion db info p).win_rate = (if p.win then 100 else 0) ∧
      (seed_champion db info p).play_rate = 1 / (db.matches_count : ℚ) ∧
      (seed_champion db info p).minions
        = p.totalMinionsKilled + p.neutralMinionsKilled ∧
      (seed_champion db info p).vision = p.visionScore ∧
      (seed_champion db info p).gold = p.goldEarned ∧
      (seed_champion db info p).damage = p.totalDamageDealtToChampions ∧
      (seed_champion db info p).last_played
        = get_date_by_timestamp info.gameCreation) ∧
    (∀ c : ChampionData, dictGet db.champions p.championName = some c →
      dictGet (add_database_champion_stats db info p).champions
          p.championName = some (update_champion c db info p) ∧
      (update_champion c db info p).num = c.num + 1 ∧
      (update_champion c db info p).kills = c.kills + p.kills ∧
      (update_champion c db info p).assists = c.assists + p.assists ∧
      (update_champion c db info p).deaths = c.deaths + p.deaths ∧
      (update_champion c db info p).wins
        = (if p.win then c.wins + 1 else c.wins) ∧
      (update_champion c db info p).losses
        = (if p.win then c.losses else c.losses + 1) ∧
      (update_champion c db info p).win_rate
        = pyRound2 (((update_champion c db info p).wins : ℚ)
            / ((update_champion c db info p).num : ℚ) * 100) ∧
      (update_champion c db info p).play_rate
        = pyRound2 (((update_champion c db info p).num : ℚ)
            / (db.matches_count : ℚ)) ∧
      (update_champion c db info p).minions
        = c.minions + (p.totalMinionsKilled + p.neutralMinionsKilled) ∧
      (update_champion c db info p).vision = c.vision + p.visionScore ∧
      (update_champion c db info p).gold = c.gold + p.goldEarned ∧
      (update_champion c db info p).damage
        = c.damage + p.totalDamageDealtToChampions ∧
      (update_champion c db info p).last_played
        = get_date_by_timestamp info.gameCreation) := by
  constructor
  · intro h
    refine ⟨?_, rfl, rfl, rfl, rfl, rfl, rfl, rfl, rfl, rfl, rfl, rfl, rfl,
      rfl⟩
    simp only [add_database_champion_stats, h]
    exact dictGet_dictSet_self _ _ _
  · intro c h
    refine ⟨?_, rfl, rfl, rfl, rfl, rfl, rfl, rfl, rfl, rfl, rfl, rfl, rfl,
      rfl⟩
    simp only [add_database_champion_stats, h]
    exact dictGet_dictSet_self _ _ _


/-- The aggregate record after one champion fold, so that the champion of
the sample participant is already present. -/
def sampleDb1 : SummonerDb :=
  add_database_champion_stats sampleDb sampleInfo samplePart

/-- The rollup entry of the sample champion inside sampleDb1, extracted. -/
def sampleChamp : ChampionData :=
  (dictGet sampleDb1.champions samplePart.championName).getD
    (seed_champion sampleDb sampleInfo samplePart)

/-- Witness for the C4 theorem: both branches applied at concrete inputs. -/
theorem champion_rollup_correct_witness :
    (dictGet sampleDb.champions samplePart.championName = none ∧
(
      dictGet (add_database_champion_stats sampleDb sampleInfo samplePart).champions
          samplePart.championName = some (seed_champion sampleDb sampleInfo samplePart) ∧
      (seed_champion sampleDb sampleInfo samplePart).num = 1 ∧
      (seed_champion sampleDb sampleInfo samplePart).kills = samplePart.kills ∧
      (seed_champion sampleDb sampleInfo samplePart).assists = samplePart.assists ∧
      (seed_champion sampleDb sampleInfo samplePart).deaths = samplePart.deaths ∧
      (seed_champion sampleDb sampleInfo samplePart).wins = (if samplePart.win then 1 else 0) ∧
      (seed_champion sampleDb sampleInfo samplePart).losses = (if ¬ samplePart.win then 1 else 0) ∧
      (seed_champion sampleDb sampleInfo samplePart).win_rate = (if samplePart.win then 100 else 0) ∧
      (seed_champion sampleDb sampleInfo samplePart).play_rate = 1 / (sampleDb.matches_count : ℚ) ∧
      (seed_champion sampleDb sampleInfo samplePart).minions
        = samplePart.totalMinionsKilled + samplePart.neutralMinionsKilled ∧
      (seed_champion sampleDb sampleInfo samplePart).vision = samplePart.visionScore ∧
      (seed_champion sampleDb sampleInfo samplePart).gold = samplePart.goldEarned ∧
      (seed_champion sampleDb sampleInfo samplePart).damage = samplePart.totalDamageDealtToChampions ∧
      (seed_champion sampleDb sampleInfo samplePart).last_played
        = get_date_by_timestamp sampleInfo.gameCreation)) ∧
    (dictGet sampleDb1.champions samplePart.championName
        = some sampleChamp ∧
(
      dictGet (add_database_champion_stats sampleDb1 sampleInfo samplePart).champions
          samplePart.championName = some (update_champion sampleChamp sampleDb1 sampleInfo samplePart) ∧
      (update_champion sampleChamp sampleDb1 sampleInfo samplePart).num = sampleChamp.num + 1 ∧
      (update_champion sampleChamp sampleDb1 sampleInfo samplePart).kills = sampleChamp.kills + samplePart.kills ∧
      (update_champion sampleChamp sampleDb1 sampleInfo samplePart).assists = sampleChamp.assists + samplePart.assists ∧
      (update_champion sampleChamp sampleDb1 sampleInfo samplePart).deaths = sampleChamp.deaths + samplePart.deaths ∧
      (update_champion sampleChamp sampleDb1 sampleInfo samplePart).wins
        = (if samplePart.win then sampleChamp.wins + 1 else sampleChamp.wins) ∧
      (update_champion sampleChamp sampleDb1 sampleInfo samplePart).losses
        = (if samplePart.win then sampleChamp.losses else sampleChamp.losses + 1) ∧
      (update_champion sampleChamp sampleDb1 sampleInfo samplePart).win_rate
        = pyRound2 (((update_champion sampleChamp sampleDb1 sampleInfo samplePart).wins : ℚ)
            / ((update_champion sampleChamp sampleDb1 sampleInfo samplePart).num : ℚ) * 100) ∧
      (update_champion sampleChamp sampleDb1 sampleInfo samplePart).play_rate
        = pyRound2 (((update_champion sampleChamp sampleDb1 sampleInfo samplePart).num : ℚ)
            / (sampleDb1.matches_count : ℚ)) ∧
      (update_champion sampleChamp sampleDb1 sampleInfo samplePart).minions
        = sampleChamp.minions + (samplePart.totalMinionsKilled + samplePart.neutralMinionsKilled) ∧
      (update_champion sampleChamp sampleDb1 sampleInfo samplePart).vision = sampleChamp.vision + samplePart.visionScore ∧
      (update_champion sampleChamp sampleDb1 sampleInfo samplePart).gold = sampleChamp.gold + samplePart.goldEarned ∧
      (update_champion sampleChamp sampleDb1 sampleInfo samplePart).damage
        = sampleChamp.damage + samplePart.totalDamageDealtToChampions ∧
      (update_champion sampleChamp sampleDb1 sampleInfo samplePart).last_played
        = get_date_by_timestamp sampleInfo.gameCreation)) :=
  ⟨⟨rfl, (champion_rollup_correct sampleDb sampleInfo samplePart).1 rfl⟩,
    ⟨rfl, (champion_rollup_correct sampleDb1 sampleInfo samplePart).2
      sampleChamp rfl⟩⟩


/-- C2: the computed KDA is round((kills+assists)/deaths, 2) when deaths is
non-zero and exactly kills+assists without any division when deaths is
zero, both for the requester record of the per-match enrichment and for
every rollup entry produced by a per-champion fold. -/
theorem kda_correct :
    (∀ (table : List Perk) (info : MatchInfo) (puuid : String)
        (md : MatchDict) (ps : PlayerSummary),
      enrich_match table info puuid = Except.ok md →
      md.player_summary = some ps →
      ps.kda = if ps.base.deaths = 0
        then ((ps.base.kills + ps.base.assists : ℤ) : ℚ)
        else pyRound2 (((ps.base.kills + ps.base.assists : ℤ) : ℚ)
          / (ps.base.deaths : ℚ))) ∧
    (∀ (db : SummonerDb) (info : MatchInfo) (p : Participant)
        (c : ChampionData),
      dictGet (add_database_champion_stats db info p).champions
          p.championName = some c →
      c.kda = if c.deaths = 0 then ((c.kills + c.assists : ℤ) : ℚ)
        else pyRound2 (((c.kills + c.assists : ℤ) : ℚ) / (c.deaths : ℚ))) := by
  constructor
  · intro table info puuid md ps h1 h2
    unfold enrich_match at h1
    split at h1
    · cases h1
      simp at h2
    · split at h1
      · cases h1
      · split at h1
        · cases h1
        · split at h1
          · cases h1
          · cases h1
            simp only [Option.some.injEq] at h2
            subst h2
            rfl
  · intro db info p c h
    unfold add_database_champion_stats at h
    cases hc : dictGet db.champions p.championName with
    | none =>
      rw [hc, dictGet_dictSet_self] at h
      injection h with h
      subst h
      by_cases hd : p.deaths = 0 <;> simp [seed_champion, hd]
    | some c0 =>
      rw [hc, dictGet_dictSet_self] at h
      injection h with h
      subst h
      by_cases hd : c0.deaths + p.deaths = 0 <;> simp [update_champion, hd]

/-- Witness for the C2 theorem: both parts applied at concrete inputs. -/
theorem kda_correct_witness :
    (enrich_match sampleTable sampleInfo "puuid-1" = Except.ok sampleMd ∧
      sampleMd.player_summary = some samplePs ∧
      samplePs.kda = if samplePs.base.deaths = 0
        then ((samplePs.base.kills + samplePs.base.assists : ℤ) : ℚ)
        else pyRound2
          (((samplePs.base.kills + samplePs.base.assists : ℤ) : ℚ)
            / (samplePs.base.deaths : ℚ))) ∧
    (dictGet
        (add_database_champion_stats sampleDb sampleInfo samplePart).champions
        samplePart.championName = some sampleChamp ∧
      sampleChamp.kda = if sampleChamp.deaths = 0
        then ((sampleChamp.kills + sampleChamp.assists : ℤ) : ℚ)
        else pyRound2 (((sampleChamp.kills + sampleChamp.assists : ℤ) : ℚ)
          / (sampleChamp.deaths : ℚ))) :=
  ⟨⟨rfl, rfl,
      kda_correct.1 sampleTable sampleInfo "puuid-1" sampleMd samplePs rfl
        rfl⟩,
    ⟨rfl, kda_correct.2 sampleDb sampleInfo samplePart sampleChamp rfl⟩⟩


/-- C9: the 7-slot item list of every enriched match is built in exactly
the display order item0, item1, item2, item6, item3, item4, item5, with
the trinket slot 6 placed fourth. -/
theorem items_display_order (table : List Perk) (info : MatchInfo)
    (puuid : String) (md : MatchDict) (ps : PlayerSummary)
    (h1 : enrich_match table info puuid = Except.ok md)
    (h2 : md.player_summary = some ps) :
    ps.items = [ps.base.item0, ps.base.item1, ps.base.item2, ps.base.item6,
      ps.base.item3, ps.base.item4, ps.base.item5] := by
  unfold enrich_match at h1
  split at h1
  · cases h1
    simp at h2
  · split at h1
    · cases h1
    · split at h1
      · cases h1
      · split at h1
        · cases h1
        · cases h1
          simp only [Option.some.injEq] at h2
          subst h2
          rfl

/-- Witness for the C9 theorem: the sample participant holds items
10..16 in slots 0..6 and the enriched list is 10, 11, 12, 16, 13, 14, 15,
the trinket 16 placed fourth. -/
theorem items_display_order_witness :
    enrich_match sampleTable sampleInfo "puuid-1" = Except.ok sampleMd ∧
    sampleMd.player_summary = some samplePs ∧
    samplePs.items = [samplePs.base.item0, samplePs.base.item1,
      samplePs.base.item2, samplePs.base.item6, samplePs.base.item3,
      samplePs.base.item4, samplePs.base.item5] ∧
    samplePs.items = [10, 11, 12, 16, 13, 14, 15] :=
  ⟨rfl, rfl,
    items_display_order sampleTable sampleInfo "puuid-1" sampleMd samplePs
      rfl rfl, rfl⟩

/-- C5: the fold pass of get_match_preview_list leaves the aggregate
record entirely unchanged for a match whose game mode is not CLASSIC or
whose lower-cased team position is empty. -/
theorem classic_filter_frame (db : SummonerDb) (m : MatchDict)
    (ps : PlayerSummary) (hps : m.player_summary = some ps)
    (h : m.info.gameMode ≠ "CLASSIC" ∨ pyLower ps.base.teamPosition = "") :
    fold_preview db m = Except.ok db := by
  have hcond : ¬ (m.info.gameMode = "CLASSIC"
      ∧ pyLower ps.base.teamPosition ≠ "") := by
    rcases h with h | h
    · exact fun hc => h hc.1
    · exact fun hc => hc.2 h
  simp only [fold_preview, hps, if_neg hcond]

/-- A player summary whose enrichment fields are irrelevant to the fold
guard, used by the C5 witness. -/
def sampleAramPs : PlayerSummary :=
  { base := samplePart, kda := 0, summoner_spell_1 := "",
    summoner_spell_2 := "", rune_primary := "", rune_secondary := "",
    items := [] }

/-- A gathered dict of a non-CLASSIC (ARAM) match, used by the C5
witness. -/
def sampleAramDict : MatchDict :=
  { info := { sampleInfo with gameMode := "ARAM", queueId := 450 }
    player_summary := some sampleAramPs
    date := none
    patch := none
    match_mode := none
    matchups := [] }

/-- Witness for the C5 theorem: folding an ARAM match changes nothing. -/
theorem classic_filter_frame_witness :
    sampleAramDict.player_summary = some sampleAramPs ∧
    (sampleAramDict.info.gameMode ≠ "CLASSIC"
      ∨ pyLower sampleAramPs.base.teamPosition = "") ∧
    fold_preview sampleDb sampleAramDict = Except.ok sampleDb :=
  ⟨rfl, by decide,
    classic_filter_frame sampleDb sampleAramDict sampleAramPs rfl
      (by decide)⟩

/-- C10: called with an empty list of not-yet-cached match ids,
get_match_preview_list does not return the unchanged record with an empty
preview list; the local variable match_preview_list is only assigned in
the non-empty branch and the return statement reading it fails with
UnboundLocalError. -/
theorem empty_matchlist_unbound_local (table : List Perk)
    (db : SummonerDb) (puuid : String) :
    get_match_preview_list table [] db puuid
      = Except.error PyError.unboundLocal ∧
    ∀ res : SummonerDb × List MatchDict,
      get_match_preview_list table [] db puuid ≠ Except.ok res := by
  refine ⟨rfl, ?_⟩
  intro res h
  exact Except.noConfusion h

/-- C6: the return statement of get_match_preview sits outside the
queue-id guard, so a match with an excluded queue id (here 0, a custom
game) is returned raw, without any enrichment field, and still reaches the
fold loop of get_match_preview_list, which then fails with KeyError
reading the never-set player_summary key instead of skipping the match. -/
theorem excluded_queue_reaches_fold :
    get_match_preview sampleTable "puuid-1" [HttpResp.ok sampleCustomInfo]
      = Except.ok (rawDict sampleCustomInfo, []) ∧
    get_match_preview_list sampleTable [[HttpResp.ok sampleCustomInfo]]
        sampleDb "puuid-1"
      = Except.error (PyError.keyErr "player_summary") :=
  ⟨rfl, rfl⟩


/-! ## Lemmas about the retry loop and the batch join -/

/-- If any task of a gather raises, the gather raises. -/
lemma gather_error {α : Type} (l : List (Except PyError α))
    (x : Except PyError α) (e : PyError) (hx : x ∈ l)
    (he : x = Except.error e) :
    ∃ e2, gather l = Except.error e2 := by
  induction l with
  | nil => cases hx
  | cons y ys ih =>
    rcases List.mem_cons.mp hx with h | h
    · subst h
      subst he
      exact ⟨e, rfl⟩
    · cases y with
      | error e3 => exact ⟨e3, rfl⟩
      | ok a =>
        obtain ⟨e2, h2⟩ := ih h
        refine ⟨e2, ?_⟩
        simp only [gather, h2]
        rfl

/-- C3, amended: a 429 response suspends the task for the Retry-After
duration and the fetch is retried up to 3 attempts, so the script
429, 429, 200 succeeds after exactly the two suspensions and three
consecutive 429s raise the max-attempts error; that error, however,
propagates through the gather of the enclosing batch, so it aborts the
whole batch rather than only the one fetch. -/
theorem retry_behavior :
    (∀ (table : List Perk) (puuid : String) (ra1 ra2 : ℕ)
        (body : MatchInfo),
      get_match_preview table puuid [HttpResp.rateLimited ra1,
          HttpResp.rateLimited ra2, HttpResp.ok body]
        = (enrich_match table body puuid).map (fun md => (md, [ra1, ra2]))) ∧
    (∀ (table : List Perk) (puuid : String) (ra1 ra2 ra3 : ℕ)
        (rest : List HttpResp),
      get_match_preview table puuid ([HttpResp.rateLimited ra1,
          HttpResp.rateLimited ra2, HttpResp.rateLimited ra3] ++ rest)
        = Except.error PyError.maxAttempts) ∧
    (∀ (table : List Perk) (scripts : List (List HttpResp))
        (db : SummonerDb) (puuid : String) (s : List HttpResp) (e : PyError),
      s ∈ scripts →
      get_match_preview table puuid s = Except.error e →
      ∃ e2, get_match_preview_list table scripts db puuid
        = Except.error e2) := by
  refine ⟨fun table puuid ra1 ra2 body => rfl,
    fun table puuid ra1 ra2 ra3 rest => ?_, ?_⟩
  · cases rest with
    | nil => rfl
    | cons a t => rfl
  · intro table scripts db puuid s e hs herr
    obtain ⟨e2, h2⟩ := gather_error
      (scripts.map (fun s2 => get_match_preview table puuid s2))
      (get_match_preview table puuid s) e (List.mem_map_of_mem _ hs) herr
    cases scripts with
    | nil => cases hs
    | cons a t =>
      refine ⟨e2, ?_⟩
      simp only [get_match_preview_list, h2]

/-- Witness for the amended C3 theorem at concrete inputs. -/
theorem retry_behavior_witness :
    (get_match_preview sampleTable "puuid-1" [HttpResp.rateLimited 1,
        HttpResp.rateLimited 2, HttpResp.ok sampleInfo]
      = (enrich_match sampleTable sampleInfo "puuid-1").map
          (fun md => (md, [1, 2]))) ∧
    (get_match_preview sampleTable "puuid-1" ([HttpResp.rateLimited 1,
        HttpResp.rateLimited 1, HttpResp.rateLimited 1] ++ [])
      = Except.error PyError.maxAttempts) ∧
    (exhaustedScript ∈ [exhaustedScript, [HttpResp.ok sampleInfo]] ∧
      get_match_preview sampleTable "puuid-1" exhaustedScript
        = Except.error PyError.maxAttempts ∧
      ∃ e2, get_match_preview_list sampleTable
          [exhaustedScript, [HttpResp.ok sampleInfo]] sampleDb "puuid-1"
        = Except.error e2) :=
  ⟨retry_behavior.1 sampleTable "puuid-1" 1 2 sampleInfo,
    retry_behavior.2.1 sampleTable "puuid-1" 1 1 1 [],
    ⟨by decide, rfl,
      retry_behavior.2.2 sampleTable
        [exhaustedScript, [HttpResp.ok sampleInfo]] sampleDb "puuid-1"
        exhaustedScript PyError.maxAttempts (by decide) rfl⟩⟩

/-- C3, counterexample to the claim as stated: in a batch where one fetch
exhausts its three attempts on 429s and the other fetch succeeds with a
200, the whole get_match_preview_list call raises the max-attempts error,
so the failure is not confined to the one enclosing fetch: the successful
fetch of the batch delivers nothing to the caller. -/
theorem retry_batch_abort_counterexample :
    get_match_preview sampleTable "puuid-1" exhaustedScript
      = Except.error PyError.maxAttempts ∧
    exceptIsOk (get_match_preview sampleTable "puuid-1"
      [HttpResp.ok sampleInfo]) = true ∧
    get_match_preview_list sampleTable
        [exhaustedScript, [HttpResp.ok sampleInfo]] sampleDb "puuid-1"
      = Except.error PyError.maxAttempts :=
  ⟨rfl, rfl, rfl⟩

/-- C7, amended: helpers.get_rune_primary fetches the remote perks table
on every call and caches nothing, so a sequence of n calls performs
exactly n remote fetches. -/
theorem rune_primary_fetch_per_call (table : List Perk) (ids : List ℤ) :
    ∀ fetchCount : ℕ,
      run_rune_primary_calls table ids fetchCount
        = fetchCount + ids.length := by
  induction ids with
  | nil => intro c; simp [run_rune_primary_calls]
  | cons i t ih =>
    intro c
    have h1 : run_rune_primary_calls table (i :: t) c
        = run_rune_primary_calls table t (c + 1) := rfl
    rw [h1, ih (c + 1)]
    simp
    omega

/-- C7, counterexample to the claim as stated: two calls of
get_rune_primary perform two remote fetches of the perks table, not at
most one. -/
theorem rune_primary_not_cached_counterexample :
    run_rune_primary_calls sampleTable [8112, 8112] 0 = 2 ∧
    ¬ run_rune_primary_calls sampleTable [8112, 8112] 0 ≤ 1 := by
  refine ⟨rfl, ?_⟩
  intro h
  simp [run_rune_primary_calls, get_rune_primary_fetches] at h


/-- C8, amended: the summoner-spell and secondary-rune-style resolvers
are total, mapping every unknown code to their sentinel labels; the
platform-to-region resolver is defined exactly on the eleven enumerated
platform codes and fails with an unbound-variable error on any other
platform; the primary-rune-path resolver (which also performs a remote
fetch on every call) is defined exactly for rune ids present in the
fetched perks table with an iconPath containing the Styles/ separator. -/
theorem resolver_totality :
    (∀ k : ℤ, k ∉ ([1, 3, 4, 6, 7, 11, 12, 13, 14, 21, 32] : List ℤ) →
      get_summoner_spell k = "summoner_empty") ∧
    (∀ r : ℤ, r ∉ ([8000, 8100, 8200, 8300] : List ℤ) →
      get_rune_secondary r = "7204_resolve") ∧
    (∀ pf : String, (get_region_by_platform pf).isSome ↔
      pf ∈ (["NA1", "BR1", "LA1", "LA2", "OC1", "EUN1", "EUW1", "TR1",
        "RU", "KR", "JP1"] : List String)) ∧
    (∀ (table : List Perk) (rid : ℤ),
      (get_rune_primary table rid).isSome ↔
      ∃ pk, find_perk table rid = some pk ∧
        2 ≤ (strSplit "Styles/" pk.iconPath).length) := by
  refine ⟨?_, ?_, ?_, ?_⟩
  · intro k hk
    simp only [List.mem_cons, List.not_mem_nil, or_false, not_or] at hk
    obtain ⟨h1, h2, h3, h4, h5, h6, h7, h8, h9, h10, h11⟩ := hk
    simp [get_summoner_spell, h1, h2, h3, h4, h5, h6, h7, h8, h9, h10, h11]
  · intro r hr
    simp only [List.mem_cons, List.not_mem_nil, or_false, not_or] at hr
    obtain ⟨h1, h2, h3, h4⟩ := hr
    simp [get_rune_secondary, h1, h2, h3, h4]
  · intro pf
    simp only [get_region_by_platform]
    split_ifs with h1 h2 h3 <;> simp_all <;> tauto
  · intro table rid
    unfold get_rune_primary
    cases hf : find_perk table rid with
    | none => simp
    | some pk0 =>
      simp only [pySplit1Tail]
      split_ifs with h <;> simp_all

/-- Witness for the amended C8 theorem: the parts with hypotheses applied
at concrete unknown codes. -/
theorem resolver_totality_witness :
    ((99 : ℤ) ∉ ([1, 3, 4, 6, 7, 11, 12, 13, 14, 21, 32] : List ℤ) ∧
      get_summoner_spell 99 = "summoner_empty") ∧
    ((9999 : ℤ) ∉ ([8000, 8100, 8200, 8300] : List ℤ) ∧
      get_rune_secondary 9999 = "7204_resolve") :=
  ⟨⟨by decide, resolver_totality.1 99 (by decide)⟩,
    ⟨by decide, resolver_totality.2.1 9999 (by decide)⟩⟩

/-- C8, counterexample to the claim as stated: the platform-to-region
resolver has no defined value for the platform code PBE (the source
raises UnboundLocalError there), and the primary-rune-path resolver has
no defined value for a rune id missing from the perks table, so not every
enrichment resolver is total with a sentinel for unknown codes. -/
theorem resolver_partial_counterexample :
    get_region_by_platform "PBE" = none ∧
    get_rune_primary [] 8112 = none :=
  ⟨rfl, rfl⟩


/-- Witness for the C10 theorem at concrete inputs: the empty call errors
and in particular does not return the unchanged record with an empty
list. -/
theorem empty_matchlist_unbound_local_witness :
    get_match_preview_list sampleTable [] sampleDb "puuid-1"
      = Except.error PyError.unboundLocal ∧
    get_match_preview_list sampleTable [] sampleDb "puuid-1"
      ≠ Except.ok (sampleDb, []) :=
  ⟨(empty_matchlist_unbound_local sampleTable sampleDb "puuid-1").1,
    (empty_matchlist_unbound_local sampleTable sampleDb "puuid-1").2
      (sampleDb, [])⟩

end LolData
